import Mathlib

set_option maxHeartbeats 1000000

/-!
# Verification of the monitoring-api Bright adapter layer

Shallow embedding of `src/services/bright.py`: the version probe, the v7 and
v8 Bright adapters, the adapter factory and the `BrightSvc` facade, together
with the parts of the (absent) `src/models/bright.py` model module that the
service layer uses, modelled from the specification.

Network I/O is made explicit: every operation runs in a small monad `M` that
reads an environment (an oracle giving the parsed-JSON response of each HTTP
request, and the current clock) and records the trace of requests issued, and
that can fail with a Python-style exception.  Parsed JSON payloads are `Json`
values; machine floats appearing in payloads (rates, timestamps) are modelled
as rationals.
-/

/-- A parsed JSON value, as returned by `response.json()`. -/
inductive Json : Type where
  | null : Json
  | bool : Bool → Json
  | num : ℚ → Json
  | str : String → Json
  | arr : List Json → Json
  | obj : List (String × Json) → Json

/-- Python exceptions that the embedded code can raise. -/
inductive PyErr : Type where
  | valueError : String → PyErr
  | typeError : String → PyErr
  | keyError : String → PyErr
  | attributeError : String → PyErr
  | requestError : String → PyErr
deriving DecidableEq

inductive HttpMethod : Type where
  | get : HttpMethod
  | post : HttpMethod
deriving DecidableEq

/-- An outbound HTTP request as issued through the `requests` session:
method, full URL, optional JSON body, TLS-verify flag and the per-request
timeout (`none` models the `requests` default of no timeout at all, i.e. the
call waits indefinitely). -/
structure Request where
  method : HttpMethod
  url : String
  body : Option Json
  verify : Bool
  timeout : Option ℚ

/-- The ambient world: an oracle mapping each request to the parsed JSON of
its response (or a transport error), and the current `time.time()` clock. -/
structure Env where
  net : Request → Except PyErr Json
  now : ℚ

/-- The effect monad of the embedding: reader access to `Env`, a trace of the
requests issued so far, and Python exceptions. -/
def M (α : Type) : Type := Env → List Request → Except PyErr (α × List Request)

instance : Monad M where
  pure a := fun _ tr => .ok (a, tr)
  bind x f := fun env tr =>
    match x env tr with
    | .ok (a, tr2) => f a env tr2
    | .error e => .error e

/-- Run a program from an empty request trace. -/
def M.run (x : M α) (env : Env) : Except PyErr (α × List Request) := x env []

/-- Issue one HTTP request: it is appended to the trace and its response (or
transport failure) comes from the oracle. -/
def request (r : Request) : M Json := fun env tr =>
  match env.net r with
  | .ok j => .ok (j, tr ++ [r])
  | .error e => .error e

/-- Read the current clock (`time.time()`). -/
def getNow : M ℚ := fun env tr => .ok (env.now, tr)

/-- Lift a pure fallible computation into `M`. -/
def liftE (x : Except PyErr α) : M α := fun _ tr =>
  match x with
  | .ok a => .ok (a, tr)
  | .error e => .error e

/-- Raise a Python exception. -/
def throwE (e : PyErr) : M α := fun _ _ => .error e

/-- Python truthiness of a JSON value (`None`, `False`, `0`, `""`, `[]` and
an empty dict are falsy). -/
def pyTruthy : Json → Bool
  | .null => false
  | .bool b => b
  | .num q => decide (q ≠ 0)
  | .str s => decide (s ≠ "")
  | .arr xs => !xs.isEmpty
  | .obj kvs => !kvs.isEmpty

/-- Truthiness of an optional JSON value (`none` is Python `None`). -/
def optTruthy : Option Json → Bool
  | none => false
  | some j => pyTruthy j

/-- Python `d.get(k)` on a parsed-JSON value: the value or `None`; raises
`AttributeError` when the receiver is not a dict. -/
def pyGet (j : Json) (k : String) : Except PyErr (Option Json) :=
  match j with
  | .obj kvs => .ok (kvs.lookup k)
  | _ => .error (.attributeError "get")

/-- Python `d[k]`: `KeyError` when the key is missing, `TypeError` when the
receiver is not a dict. -/
def pyItem (j : Json) (k : String) : Except PyErr Json :=
  match j with
  | .obj kvs =>
      match kvs.lookup k with
      | some v => .ok v
      | none => .error (.keyError k)
  | _ => .error (.typeError "value is not subscriptable")

/-- Python `int()` truncation of a number toward zero. -/
def truncQ (q : ℚ) : ℤ := if 0 ≤ q then ⌊q⌋ else ⌈q⌉

/-- Python `round()` to the nearest integer, ties going to the even
neighbour.  The fractional part is compared against one half through
doubling, keeping the definition division-free. -/
def pyRound (q : ℚ) : ℤ :=
  let f := ⌊q⌋
  let r := q - f
  if 2 * r < 1 then f
  else if 1 < 2 * r then f + 1
  else if f % 2 = 0 then f else f + 1

/-- All characters are decimal digits. -/
def allDigits (cs : List Char) : Bool := cs.all (·.isDigit)

/-- Numeric value of a list of decimal digits. -/
def digitsToNat (cs : List Char) : ℕ := cs.foldl (fun a c => a * 10 + (c.toNat - 48)) 0

/-- Surrounding whitespace removed from a character list. -/
def stripChars (cs : List Char) : List Char :=
  ((cs.dropWhile Char.isWhitespace).reverse.dropWhile Char.isWhitespace).reverse

/-- Python `float()` on a string, for plain decimal literals: optional
whitespace and sign, digits with an optional fractional part.  Scientific
notation, `inf`, `nan` and underscores are not modelled; every input the
development evaluates is a plain decimal. -/
def pyFloatParse (s : String) : Option ℚ :=
  let t := stripChars s.data
  let neg : Bool :=
    match t with
    | '-' :: _ => true
    | _ => false
  let cs :=
    match t with
    | '-' :: rest => rest
    | '+' :: rest => rest
    | rest => rest
  let ip := cs.takeWhile (· ≠ '.')
  let val :=
    match cs.dropWhile (· ≠ '.') with
    | [] =>
        if ip ≠ [] ∧ allDigits ip then some ((digitsToNat ip : ℚ)) else none
    | _ :: fp =>
        if allDigits ip ∧ allDigits fp ∧ (ip ≠ [] ∨ fp ≠ []) then
          some (mkRat (digitsToNat ip * 10 ^ fp.length + digitsToNat fp) (10 ^ fp.length))
        else none
  val.map (fun v => if neg then -v else v)

/-- Python `int()` on a string: optional whitespace and sign, digits only. -/
def pyIntParse (s : String) : Option ℤ :=
  let t := stripChars s.data
  let cs :=
    match t with
    | '-' :: rest => rest
    | '+' :: rest => rest
    | rest => rest
  if cs ≠ [] ∧ allDigits cs then
    match t with
    | '-' :: _ => some (-(digitsToNat cs : ℤ))
    | _ => some (digitsToNat cs : ℤ)
  else none

/-- Python `float(x)` coercion as applied to a JSON field. -/
def pyFloat : Json → Except PyErr ℚ
  | .num q => .ok q
  | .bool b => .ok (if b then 1 else 0)
  | .str s =>
      match pyFloatParse s with
      | some q => .ok q
      | none => .error (.valueError ("could not convert string to float: " ++ s))
  | _ => .error (.typeError "float() argument must be a string or a number")

/-- Python `int(x)` coercion as applied to a JSON field. -/
def pyInt : Json → Except PyErr ℤ
  | .num q => .ok (truncQ q)
  | .bool b => .ok (if b then 1 else 0)
  | .str s =>
      match pyIntParse s with
      | some n => .ok n
      | none => .error (.valueError ("invalid literal for int() with base 10: " ++ s))
  | _ => .error (.typeError "int() argument must be a string or a number")

/-- Percent-encoded hexadecimal digit. -/
def hexChar (n : ℕ) : Char := if n < 10 then Char.ofNat (48 + n) else Char.ofNat (55 + n)

/-- UTF-8 encoding of one character, as a list of byte values. -/
def utf8BytesOfChar (c : Char) : List ℕ :=
  let v := c.toNat
  if v ≤ 127 then [v]
  else if v ≤ 2047 then [192 + v / 64, 128 + v % 64]
  else if v ≤ 65535 then [224 + v / 4096, 128 + v / 64 % 64, 128 + v % 64]
  else [240 + v / 262144, 128 + v / 4096 % 64, 128 + v / 64 % 64, 128 + v % 64]

/-- Bytes kept verbatim by `urllib.parse.quote_plus` (letters, digits and
the characters underscore, dot, dash, tilde). -/
def plusSafe (b : ℕ) : Bool :=
  (48 ≤ b && b ≤ 57) || (65 ≤ b && b ≤ 90) || (97 ≤ b && b ≤ 122) ||
    b == 95 || b == 46 || b == 45 || b == 126

/-- `urllib.parse.quote_plus`: spaces become plus signs, safe bytes are kept
and every other UTF-8 byte is percent-encoded. -/
def quotePlus (s : String) : String :=
  String.mk ((s.data.flatMap utf8BytesOfChar).flatMap (fun b =>
    if b == 32 then ['+']
    else if plusSafe b then [Char.ofNat b]
    else ['%', hexChar (b / 16), hexChar (b % 16)]))

/-- `urllib.parse.urlencode` on an ordered association list. -/
def urlencode (params : List (String × String)) : String :=
  String.intercalate "&" (params.map (fun p => quotePlus p.1 ++ "=" ++ quotePlus p.2))

/-- Modelled from the spec: the `HealthCheckStatus` enum of the repository's
`src/models/bright.py`, which is not under `src/`.  Per §3 the status set is
the closed enumeration of health states, of which the spec pins down ordinal
0 = ONLINE and ordinal 2 = OFFLINE, and the labels PASS → ONLINE and
FAIL → OFFLINE. -/
inductive HealthCheckStatus : Type where
  | ONLINE : HealthCheckStatus
  | OFFLINE : HealthCheckStatus
  | UNKNOWN : HealthCheckStatus
deriving DecidableEq

/-- Modelled from the spec: coercion of an integer ordinal to the status
enum (v7 path).  The spec assigns ordinal 0 to ONLINE and ordinal 2 to
OFFLINE; any ordinal it does not assign is unmappable, and per the §3
invariant an unmappable raw status is an error condition, not a default. -/
def HealthCheckStatus.ofOrdinal : ℤ → Option HealthCheckStatus
  | 0 => some .ONLINE
  | 2 => some .OFFLINE
  | _ => none

/-- Modelled from the spec: coercion of a string label to the status enum
(v8 path): PASS → ONLINE, FAIL → OFFLINE, with UNKNOWN naming itself. -/
def HealthCheckStatus.ofLabel : String → Option HealthCheckStatus
  | "PASS" => some .ONLINE
  | "FAIL" => some .OFFLINE
  | "UNKNOWN" => some .UNKNOWN
  | _ => none

/-- `HealthCheckStatus(x)` with an ordinal argument: `ValueError` when the
ordinal is not a member, per the §3 invariant. -/
def HealthCheckStatus.ofOrdinalE (n : ℤ) : Except PyErr HealthCheckStatus :=
  match HealthCheckStatus.ofOrdinal n with
  | some st => .ok st
  | none => .error (.valueError "is not a valid HealthCheckStatus")

/-- `HealthCheckStatus(x)` with a label argument: `ValueError` when the
label names no member. -/
def HealthCheckStatus.ofLabelE (s : String) : Except PyErr HealthCheckStatus :=
  match HealthCheckStatus.ofLabel s with
  | some st => .ok st
  | none => .error (.valueError "is not a valid HealthCheckStatus")

/-- Modelled from the spec: the `HealthCheck` model of the missing
`src/models/bright.py`, with the field typing §3 prescribes — string name and
node, numeric timestamp as reported upstream, integer seconds_ago, the
status enum, and the original raw record retained. -/
structure HealthCheck where
  name : String
  status : HealthCheckStatus
  node : String
  timestamp : ℚ
  seconds_ago : ℤ
  raw : Json

/-- Field coercion of the modelled `HealthCheck` constructor: name and node
are strings (§3). -/
def asStr : Json → Except PyErr String
  | .str s => .ok s
  | _ => .error (.typeError "expected a string field")

/-- Field coercion for values used in clock arithmetic: a JSON number (or a
Python bool, which arithmetic treats as 0 or 1). -/
def asNum : Json → Except PyErr ℚ
  | .num q => .ok q
  | .bool b => .ok (if b then 1 else 0)
  | _ => .error (.typeError "expected a numeric field")

/-- Connection state established by `BrightBase.__init__`: URL, TLS-verify
flag and the per-request timeout, defaulting to 5 seconds.  Session
authentication and headers are transport details without bearing on any
claim and are not modelled. -/
structure BrightConf where
  url : String
  verify : Bool := true
  timeout : ℚ := 5

/-- The `getVersion` probe request of `BrightBase.version`. -/
def BrightBase.versionReq (b : BrightConf) : Request :=
  { method := .post
    url := b.url ++ "/json"
    body := some (.obj [("service", .str "cmmain"), ("call", .str "getVersion")])
    verify := b.verify
    timeout := some b.timeout }

/-- `BrightBase.version`: posts the `cmmain/getVersion` call and returns the
`cmVersion` field of the response via `.get` (so `None` when absent). -/
def BrightBase.version (b : BrightConf) : M (Option Json) := do
  let response ← request (BrightBase.versionReq b)
  liftE (pyGet response "cmVersion")

/-- `Bright7.base`: the v7 RPC endpoint. -/
def Bright7.base (b : BrightConf) : String := b.url ++ "/json"

/-- JSON encoding of an optional entity-name argument (`None` when absent). -/
def Bright7.entityArg : Option String → Json
  | some s => .str s
  | none => .null

/-- The `cmdevice/getDevice` request of `Bright7.entity`. -/
def Bright7.entityReq (b : BrightConf) (name : Option String) : Request :=
  { method := .post
    url := Bright7.base b
    body := some (.obj [("service", .str "cmdevice"), ("call", .str "getDevice"),
      ("arg", Bright7.entityArg name)])
    verify := b.verify
    timeout := some b.timeout }

/-- `Bright7.entity`. -/
def Bright7.entity (b : BrightConf) (name : Option String) : M Json :=
  request (Bright7.entityReq b name)

/-- The `cmmon/getHealthcheck` request of `Bright7.measurable`. -/
def Bright7.measurableReq (b : BrightConf) (name : String) : Request :=
  { method := .post
    url := Bright7.base b
    body := some (.obj [("service", .str "cmmon"), ("call", .str "getHealthcheck"),
      ("arg", .str name)])
    verify := b.verify
    timeout := some b.timeout }

/-- `Bright7.measurable`. -/
def Bright7.measurable (b : BrightConf) (name : String) : M Json :=
  request (Bright7.measurableReq b name)

/-- The `cmmon/getLatestPickedRates` data request of
`Bright7.latest_measurable_data`.  The source posts it to `self.url` (not to
`self.base`) and passes no `timeout` argument, so the request carries the
bare appliance URL and no timeout. -/
def Bright7.dataReq (b : BrightConf) (measurable_id entity_id : Json) : Request :=
  { method := .post
    url := b.url
    body := some (.obj [("service", .str "cmmon"), ("call", .str "getLatestPickedRates"),
      ("args", .arr [.arr [entity_id], .arr [.obj [("metricId", measurable_id)]]])])
    verify := b.verify
    timeout := none }

/-- `dict(**data, measurable=..., entity=...)` applied to one response item:
appends the two keys, raising `TypeError` when the item is not a mapping or
already carries one of them. -/
def Bright7.augment (measurable : String) (entity : Option String) (data : Json) :
    Except PyErr Json :=
  match data with
  | .obj kvs =>
      if (kvs.lookup "measurable").isSome ∨ (kvs.lookup "entity").isSome then
        .error (.typeError "got multiple values for keyword argument")
      else
        .ok (.obj (kvs ++ [("measurable", .str measurable), ("entity", Bright7.entityArg entity)]))
  | _ => .error (.typeError "argument after ** must be a mapping")

/-- `Bright7.latest_measurable_data`: resolves the measurable's uniqueKey,
then the entity's uniqueKey, short-circuits to the empty list when either is
falsy, and otherwise issues the data call and augments every item of the
returned sequence.  (A data-call response that is not a JSON sequence of
mappings raises `TypeError` in Python when its items reach the `dict` splat;
the model raises at the response.) -/
def Bright7.latest_measurable_data (b : BrightConf) (measurable : String)
    (entity : Option String) : M (List Json) := do
  let mResp ← Bright7.measurable b measurable
  let measurable_id ← liftE (pyGet mResp "uniqueKey")
  let eResp ← Bright7.entity b entity
  let entity_id ← liftE (pyGet eResp "uniqueKey")
  if !optTruthy entity_id || !optTruthy measurable_id then
    pure []
  else do
    let response ← request (Bright7.dataReq b (measurable_id.getD .null) (entity_id.getD .null))
    match response with
    | .arr items => liftE (items.mapM (Bright7.augment measurable entity))
    | _ => throwE (.typeError "response is not a sequence of mappings")

/-- `Bright7.measurable_mapper`: falsy raw records map to `None`; otherwise
the status is the enum at the ordinal `round(float(raw rate))` and
seconds_ago is `int(time.time() - raw timeStamp)` — the mapper reads the
clock, which the embedding passes explicitly as `now`. -/
def Bright7.measurable_mapper (raw : Option Json) (now : ℚ) :
    Except PyErr (Option HealthCheck) :=
  if optTruthy raw then do
    let r := raw.getD .null
    let nameJ ← pyItem r "measurable"
    let name ← asStr nameJ
    let rateJ ← pyItem r "rate"
    let rate ← pyFloat rateJ
    let status ← HealthCheckStatus.ofOrdinalE (pyRound rate)
    let nodeJ ← pyItem r "entity"
    let node ← asStr nodeJ
    let tsJ ← pyItem r "timeStamp"
    let ts ← asNum tsJ
    .ok (some { name := name, status := status, node := node, timestamp := ts,
                seconds_ago := truncQ (now - ts), raw := r })
  else .ok none

/-- `Bright8.base`: the v8 REST endpoint prefix. -/
def Bright8.base (b : BrightConf) : String := b.url ++ "/rest/v1"

/-- The `cmmon/getMonitoringMeasurable` request of `Bright8.measurable`
(posted to the legacy `/json` endpoint). -/
def Bright8.measurableReq (b : BrightConf) (name : String) : Request :=
  { method := .post
    url := b.url ++ "/json"
    body := some (.obj [("service", .str "cmmon"), ("call", .str "getMonitoringMeasurable"),
      ("arg", .str name)])
    verify := b.verify
    timeout := some b.timeout }

/-- `Bright8.measurable`. -/
def Bright8.measurable (b : BrightConf) (name : String) : M Json :=
  request (Bright8.measurableReq b name)

/-- Query parameters of the v8 latest-data call: `measurable`, and `entity`
only when a node was given. -/
def Bright8.latestParams (measurable : String) (entity : Option String) :
    List (String × String) :=
  [("measurable", measurable)] ++
    (match entity with
     | some e => [("entity", e)]
     | none => [])

/-- The GET request of `Bright8.latest_measurable_data`. -/
def Bright8.latestReq (b : BrightConf) (measurable : String) (entity : Option String) :
    Request :=
  { method := .get
    url := Bright8.base b ++ "/monitoring/latest?" ++
      urlencode (Bright8.latestParams measurable entity)
    body := none
    verify := b.verify
    timeout := some b.timeout }

/-- `Bright8.latest_measurable_data`: one GET, returning the response's
`data` field via `.get` with the empty list as default. -/
def Bright8.latest_measurable_data (b : BrightConf) (measurable : String)
    (entity : Option String) : M (List Json) := do
  let response ← request (Bright8.latestReq b measurable entity)
  match response with
  | .obj kvs =>
      match kvs.lookup "data" with
      | some (.arr items) => pure items
      | some _ => throwE (.typeError "data field is not a sequence")
      | none => pure []
  | _ => throwE (.attributeError "get")

/-- `Bright8.measurable_mapper`: falsy raw records map to `None`; otherwise
the status is the enum member for the string label in `value` and
seconds_ago is `int(raw age)` taken from the record — no clock access. -/
def Bright8.measurable_mapper (raw : Option Json) : Except PyErr (Option HealthCheck) :=
  if optTruthy raw then do
    let r := raw.getD .null
    let nameJ ← pyItem r "measurable"
    let name ← asStr nameJ
    let valueJ ← pyItem r "value"
    let label ← asStr valueJ
    let status ← HealthCheckStatus.ofLabelE label
    let nodeJ ← pyItem r "entity"
    let node ← asStr nodeJ
    let tsJ ← pyItem r "time"
    let ts ← asNum tsJ
    let ageJ ← pyItem r "age"
    let age ← pyInt ageJ
    .ok (some { name := name, status := status, node := node, timestamp := ts,
                seconds_ago := age, raw := r })
  else .ok none

/-- The two concrete adapter classes the factory can select. -/
inductive AdapterClass : Type where
  | bright7 : AdapterClass
  | bright8 : AdapterClass
deriving DecidableEq

/-- The `BrightSvc` facade after construction: connection state, the adapter
selected once by the factory, and the externally-configured allow-list
(`SUPPORTED_MEASURABLES` from app config). -/
structure BrightSvc where
  conf : BrightConf
  adapter : AdapterClass
  supported_measurables : List String

/-- `BrightSvc.factory`: parses the version string as a decimal number,
truncates to the integer major version, and selects Bright7 or Bright8,
raising `ValueError` for any other major; a non-numeric string raises
`ValueError` already at `float()`. -/
def BrightSvc.factory (version : String) : Except PyErr AdapterClass :=
  match pyFloatParse version with
  | none => .error (.valueError ("could not convert string to float: " ++ version))
  | some q =>
      let major_version := truncQ q
      if major_version ≠ 7 ∧ major_version ≠ 8 then .error (.valueError "Unsupported version")
      else if major_version = 7 then .ok .bright7
      else .ok .bright8

/-- Delegation of `latest_measurable_data` to the selected adapter (the
facade's `__getattr__` forwarding). -/
def BrightSvc.latest_measurable_data (s : BrightSvc) (measurable : String)
    (entity : Option String) : M (List Json) :=
  match s.adapter with
  | .bright7 => Bright7.latest_measurable_data s.conf measurable entity
  | .bright8 => Bright8.latest_measurable_data s.conf measurable entity

/-- Delegation of `measurable_mapper` to the selected adapter. -/
def BrightSvc.measurable_mapper (s : BrightSvc) (raw : Option Json) (now : ℚ) :
    Except PyErr (Option HealthCheck) :=
  match s.adapter with
  | .bright7 => Bright7.measurable_mapper raw now
  | .bright8 => Bright8.measurable_mapper raw

/-- `BrightSvc.health_check`: `None` immediately when the key is not in the
allow-list; otherwise fetch the latest data, take the first record (or
`None`) and map it. -/
def BrightSvc.health_check (s : BrightSvc) (key : String) (node : Option String) :
    M (Option HealthCheck) :=
  if key ∉ s.supported_measurables then pure none
  else do
    let data ← s.latest_measurable_data key node
    let measurable := data.head?
    let now ← getNow
    liftE (s.measurable_mapper measurable now)

/-- The generator inside `BrightSvc.health_checks`: one `health_check` call
per allow-listed name, in order. -/
def BrightSvc.health_checks_list (s : BrightSvc) (node : Option String) :
    List String → M (List (Option HealthCheck))
  | [] => pure []
  | m :: rest => do
      let c ← s.health_check m node
      let cs ← s.health_checks_list node rest
      pure (c :: cs)

/-- `BrightSvc.health_checks`: the generator's results with `None` entries
filtered out. -/
def BrightSvc.health_checks (s : BrightSvc) (node : Option String) : M (List HealthCheck) := do
  let checks ← s.health_checks_list node s.supported_measurables
  pure (checks.filterMap id)

/-! ## Proof infrastructure: pointwise evaluation of `M` programs -/

@[simp] theorem M_bind_apply (x : M α) (f : α → M β) (env : Env) (tr : List Request) :
    (x >>= f) env tr =
      match x env tr with
      | .ok (a, tr2) => f a env tr2
      | .error e => .error e := rfl

@[simp] theorem M_pure_apply (a : α) (env : Env) (tr : List Request) :
    (pure a : M α) env tr = .ok (a, tr) := rfl

@[simp] theorem request_apply (r : Request) (env : Env) (tr : List Request) :
    request r env tr =
      match env.net r with
      | .ok j => .ok (j, tr ++ [r])
      | .error e => .error e := rfl

@[simp] theorem getNow_apply (env : Env) (tr : List Request) :
    getNow env tr = .ok (env.now, tr) := rfl

@[simp] theorem liftE_apply (x : Except PyErr α) (env : Env) (tr : List Request) :
    liftE x env tr =
      match x with
      | .ok a => .ok (a, tr)
      | .error e => .error e := rfl

@[simp] theorem throwE_apply (e : PyErr) (env : Env) (tr : List Request) :
    (throwE e : M α) env tr = .error e := rfl

@[simp] theorem M_run_apply (x : M α) (env : Env) : x.run env = x env [] := rfl

theorem truncQ_intCast (n : ℤ) : truncQ (n : ℚ) = n := by
  unfold truncQ; split <;> simp

theorem truncQ_sub_intCast (a b : ℤ) : truncQ ((a : ℚ) - (b : ℚ)) = a - b := by
  have h : ((a : ℚ) - (b : ℚ)) = ((a - b : ℤ) : ℚ) := by push_cast; ring
  rw [h, truncQ_intCast]

/-! ## Shared concrete fixtures -/

/-- Connection state used by concrete evaluations. -/
def confW : BrightConf := { url := "http://h" }

/-- Facade over the v8 adapter with allow-list foo, bar. -/
def svcW : BrightSvc :=
  { conf := confW, adapter := .bright8, supported_measurables := ["foo", "bar"] }

/-- Facade over the v7 adapter with allow-list foo, bar. -/
def svcW7 : BrightSvc :=
  { conf := confW, adapter := .bright7, supported_measurables := ["foo", "bar"] }

/-- Environment whose upstream answers every call with an empty JSON object. -/
def envW : Env := { net := fun _ => .ok (.obj []), now := 0 }

/-! ## C1 -/

/-- C1: for a check name outside the allow-list, `health_check` returns
`None` with an empty request trace — no network call, whichever adapter is
selected; for an allow-listed name it delegates to the adapter's
`latest_measurable_data`, takes the first record (or none) and returns the
result of the adapter's mapper on it. -/
theorem health_check_allowlist_delegation (s : BrightSvc) (key : String)
    (node : Option String) (env : Env) :
    (key ∉ s.supported_measurables → (s.health_check key node).run env = .ok (none, [])) ∧
    (key ∈ s.supported_measurables →
      (s.health_check key node).run env =
        match (s.latest_measurable_data key node).run env with
        | .ok (data, tr) =>
            match s.measurable_mapper data.head? env.now with
            | .ok r => .ok (r, tr)
            | .error e => .error e
        | .error e => .error e) := by
  constructor
  · intro h
    simp [BrightSvc.health_check, h]
  · intro h
    simp only [BrightSvc.health_check, h, not_true_eq_false, M_run_apply]
    rw [if_neg (by simp [h])]
    simp only [M_bind_apply, getNow_apply, liftE_apply]
    cases hfetch : (s.latest_measurable_data key node) env [] with
    | error e => simp
    | ok p =>
        obtain ⟨data, tr⟩ := p
        cases hmap : s.measurable_mapper data.head? env.now <;> simp [hmap]

theorem health_check_allowlist_delegation_witness :
    ("baz" ∉ svcW.supported_measurables ∧
      (svcW.health_check "baz" none).run envW = .ok (none, [])) ∧
    ("foo" ∈ svcW.supported_measurables ∧
      (svcW.health_check "foo" none).run envW =
        match (svcW.latest_measurable_data "foo" none).run envW with
        | .ok (data, tr) =>
            match svcW.measurable_mapper data.head? envW.now with
            | .ok r => .ok (r, tr)
            | .error e => .error e
        | .error e => .error e) :=
  ⟨⟨by decide, (health_check_allowlist_delegation svcW "baz" none envW).1 (by decide)⟩,
   ⟨by decide, (health_check_allowlist_delegation svcW "foo" none envW).2 (by decide)⟩⟩

/-! ## C2 -/

theorem health_check_all_empty (s : BrightSvc) (key : String) (node : Option String)
    (env : Env) (h : ∀ r, env.net r = .ok (.obj [])) (tr0 : List Request) :
    ∃ d, s.health_check key node env tr0 = .ok (none, tr0 ++ d) := by
  by_cases hk : key ∈ s.supported_measurables
  · obtain ⟨conf, adapter, sup⟩ := s
    cases adapter
    · refine ⟨[Bright7.measurableReq conf key, Bright7.entityReq conf node], ?_⟩
      rw [BrightSvc.health_check, if_neg (by simp_all)]
      simp [BrightSvc.latest_measurable_data, Bright7.latest_measurable_data,
        Bright7.measurable, Bright7.entity, h, pyGet, optTruthy,
        BrightSvc.measurable_mapper, Bright7.measurable_mapper]
    · refine ⟨[Bright8.latestReq conf key node], ?_⟩
      rw [BrightSvc.health_check, if_neg (by simp_all)]
      simp [BrightSvc.latest_measurable_data, Bright8.latest_measurable_data,
        h, BrightSvc.measurable_mapper, Bright8.measurable_mapper, optTruthy]
  · refine ⟨[], ?_⟩
    rw [BrightSvc.health_check, if_pos hk]
    simp

theorem health_checks_list_all_empty (s : BrightSvc) (node : Option String) (env : Env)
    (h : ∀ r, env.net r = .ok (.obj [])) (names : List String) : ∀ tr0 : List Request,
    ∃ xs d, s.health_checks_list node names env tr0 = .ok (xs, tr0 ++ d) ∧
      xs.filterMap id = [] := by
  induction names with
  | nil =>
      intro tr0
      exact ⟨[], [], by simp [BrightSvc.health_checks_list], rfl⟩
  | cons m rest ih =>
      intro tr0
      obtain ⟨d1, h1⟩ := health_check_all_empty s m node env h tr0
      obtain ⟨xs, d2, h2, h3⟩ := ih (tr0 ++ d1)
      refine ⟨none :: xs, d1 ++ d2, ?_, by simpa using h3⟩
      simp [BrightSvc.health_checks_list, h1, h2, List.append_assoc]

/-- v8 upstream record for foo, status label PASS (mirrors the repository's
functional-test fixture). -/
def recFoo8 : Json :=
  .obj [("age", .num 0), ("entity", .str "foo_node"), ("measurable", .str "foo"),
        ("time", .num 0), ("value", .str "PASS")]

/-- v8 upstream record for bar, status label FAIL. -/
def recBar8 : Json :=
  .obj [("age", .num 0), ("entity", .str "bar_node"), ("measurable", .str "bar"),
        ("time", .num 0), ("value", .str "FAIL")]

/-- Facade over the v8 adapter whose allow-list also carries a third name
with no upstream data. -/
def svcFooBarBaz : BrightSvc :=
  { conf := confW, adapter := .bright8, supported_measurables := ["foo", "bar", "baz"] }

/-- Upstream with data for foo and bar only; every other call gets an empty
object. -/
def netFooBar : Request → Except PyErr Json := fun r =>
  if r.url = "http://h/rest/v1/monitoring/latest?measurable=foo" then
    .ok (.obj [("data", .arr [recFoo8])])
  else if r.url = "http://h/rest/v1/monitoring/latest?measurable=bar" then
    .ok (.obj [("data", .arr [recBar8])])
  else .ok (.obj [])

/-- The normalized foo check (ONLINE). -/
def hcFoo : HealthCheck :=
  { name := "foo", status := .ONLINE, node := "foo_node", timestamp := 0,
    seconds_ago := 0, raw := recFoo8 }

/-- The normalized bar check (OFFLINE). -/
def hcBar : HealthCheck :=
  { name := "bar", status := .OFFLINE, node := "bar_node", timestamp := 0,
    seconds_ago := 0, raw := recBar8 }

/-- C2: `health_checks` yields exactly the non-absent `health_check` results
in allow-list order: with data for foo (ONLINE) and bar (OFFLINE) and nothing
for the third allow-listed name, the result is foo then bar — the allow-list
order, not the alphabetical one — with absent results filtered out; and when
upstream returns an empty payload for every call, the result is the empty
list, not an error, for every facade. -/
theorem health_checks_filter_order :
    (∀ now : ℚ, (svcFooBarBaz.health_checks none).run { net := netFooBar, now := now } =
      .ok ([hcFoo, hcBar],
        [Bright8.latestReq confW "foo" none, Bright8.latestReq confW "bar" none,
         Bright8.latestReq confW "baz" none])) ∧
    (∀ (s : BrightSvc) (node : Option String) (env : Env),
      (∀ r, env.net r = .ok (.obj [])) →
      ∃ tr, (s.health_checks node).run env = .ok ([], tr)) := by
  constructor
  · intro now
    rfl
  · intro s node env h
    obtain ⟨xs, d, h1, h2⟩ := health_checks_list_all_empty s node env h
      s.supported_measurables []
    refine ⟨d, ?_⟩
    simp only [M_run_apply, BrightSvc.health_checks, M_bind_apply, h1, M_pure_apply, h2]
    simp at h1
    simp [h1, h2]

theorem health_checks_filter_order_witness :
    (∀ r : Request, envW.net r = .ok (.obj [])) ∧
    ∃ tr, (svcW7.health_checks none).run envW = .ok ([], tr) :=
  ⟨fun _ => rfl, health_checks_filter_order.2 svcW7 none envW (fun _ => rfl)⟩

/-! ## C3 -/

/-- C3: the factory parses its version string as a decimal number, truncates
it to the integer major version, returns the Bright7 class for major 7 and
the Bright8 class for major 8, and raises a `ValueError` for every other
input — both for parseable versions with an unsupported major (such as "9")
and for non-numeric strings (such as "abc", already at `float()`); either
way construction aborts. -/
theorem factory_version_selection :
    (∀ (v : String) (q : ℚ), pyFloatParse v = some q → truncQ q = 7 →
      BrightSvc.factory v = .ok .bright7) ∧
    (∀ (v : String) (q : ℚ), pyFloatParse v = some q → truncQ q = 8 →
      BrightSvc.factory v = .ok .bright8) ∧
    (∀ (v : String) (q : ℚ), pyFloatParse v = some q → truncQ q ≠ 7 → truncQ q ≠ 8 →
      BrightSvc.factory v = .error (.valueError "Unsupported version")) ∧
    (∀ v : String, pyFloatParse v = none →
      BrightSvc.factory v = .error (.valueError ("could not convert string to float: " ++ v))) ∧
    BrightSvc.factory "7" = .ok .bright7 ∧
    BrightSvc.factory "8" = .ok .bright8 ∧
    BrightSvc.factory "9" = .error (.valueError "Unsupported version") ∧
    BrightSvc.factory "abc" = .error (.valueError "could not convert string to float: abc") := by
  refine ⟨?_, ?_, ?_, ?_, rfl, rfl, rfl, rfl⟩
  · intro v q h1 h2
    simp [BrightSvc.factory, h1, h2]
  · intro v q h1 h2
    simp [BrightSvc.factory, h1, h2]
  · intro v q h1 h2 h3
    simp [BrightSvc.factory, h1, h2, h3]
  · intro v h1
    simp [BrightSvc.factory, h1]

theorem factory_version_selection_witness :
    (pyFloatParse "7" = some 7 ∧ truncQ 7 = 7 ∧ BrightSvc.factory "7" = .ok .bright7) ∧
    (pyFloatParse "8" = some 8 ∧ truncQ 8 = 8 ∧ BrightSvc.factory "8" = .ok .bright8) :=
  ⟨⟨rfl, rfl, factory_version_selection.1 "7" 7 rfl rfl⟩,
   ⟨rfl, rfl, factory_version_selection.2.1 "8" 8 rfl rfl⟩⟩

/-! ## C4 -/

/-- C4: both adapters normalize every no-data case to an empty sequence
rather than an error.  v7: after the two resolution round-trips — issued
before the data call — a falsy uniqueKey on either side short-circuits to
the empty list with exactly those two requests on the trace, so no data
call is issued.  v8: a response object without the `data` field yields the
default empty list after the single GET. -/
theorem fetch_latest_no_data_empty :
    (∀ (b : BrightConf) (m : String) (node : Option String) (env : Env)
        (mkvs ekvs : List (String × Json)),
      env.net (Bright7.measurableReq b m) = .ok (.obj mkvs) →
      env.net (Bright7.entityReq b node) = .ok (.obj ekvs) →
      optTruthy (mkvs.lookup "uniqueKey") = false ∨
        optTruthy (ekvs.lookup "uniqueKey") = false →
      (Bright7.latest_measurable_data b m node).run env =
        .ok ([], [Bright7.measurableReq b m, Bright7.entityReq b node])) ∧
    (∀ (b : BrightConf) (m : String) (node : Option String) (env : Env)
        (kvs : List (String × Json)),
      env.net (Bright8.latestReq b m node) = .ok (.obj kvs) →
      kvs.lookup "data" = none →
      (Bright8.latest_measurable_data b m node).run env =
        .ok ([], [Bright8.latestReq b m node])) := by
  constructor
  · intro b m node env mkvs ekvs h1 h2 h3
    rcases h3 with h3 | h3 <;>
      simp [Bright7.latest_measurable_data, Bright7.measurable, Bright7.entity,
        h1, h2, h3, pyGet]
  · intro b m node env kvs h1 h2
    simp [Bright8.latest_measurable_data, h1, h2]

theorem fetch_latest_no_data_empty_witness :
    (envW.net (Bright7.measurableReq confW "foo") = .ok (.obj []) ∧
      optTruthy (List.lookup "uniqueKey" ([] : List (String × Json))) = false ∧
      (Bright7.latest_measurable_data confW "foo" none).run envW =
        .ok ([], [Bright7.measurableReq confW "foo", Bright7.entityReq confW none])) ∧
    (envW.net (Bright8.latestReq confW "bar" (some "n")) = .ok (.obj []) ∧
      (Bright8.latest_measurable_data confW "bar" (some "n")).run envW =
        .ok ([], [Bright8.latestReq confW "bar" (some "n")])) :=
  ⟨⟨rfl, rfl, fetch_latest_no_data_empty.1 confW "foo" none envW [] [] rfl rfl (Or.inl rfl)⟩,
   ⟨rfl, fetch_latest_no_data_empty.2 confW "bar" (some "n") envW [] rfl rfl⟩⟩

/-! ## C5 -/

/-- A v7 raw record as the v7 fetch pipeline produces it: upstream rate and
timeStamp, augmented with measurable and entity. -/
def rec7 (name nodeName : String) (ts rate : ℚ) : Json :=
  .obj [("rate", .num rate), ("timeStamp", .num ts),
        ("measurable", .str name), ("entity", .str nodeName)]

unseal Rat.sub Rat.mul in
theorem pyRound_zero : pyRound 0 = 0 := rfl

unseal Rat.sub Rat.mul in
theorem pyRound_two : pyRound 2 = 2 := rfl

/-- C5: on any non-null v7 record the mapper yields the status enum at the
ordinal `round(rate)` — in particular rate 0.0 gives ordinal 0 (ONLINE) and
rate 2.0 gives ordinal 2 (OFFLINE) — and, for an integer clock and
timestamp, seconds_ago is exactly `now - timestamp`. -/
theorem mapper7_rate_and_seconds :
    (∀ (name nodeName : String) (ts now : ℤ) (rate : ℚ) (st : HealthCheckStatus),
      HealthCheckStatus.ofOrdinal (pyRound rate) = some st →
      Bright7.measurable_mapper (some (rec7 name nodeName (ts : ℚ) rate)) ((now : ℤ) : ℚ) =
        .ok (some { name := name, status := st, node := nodeName, timestamp := (ts : ℚ),
                    seconds_ago := now - ts, raw := rec7 name nodeName (ts : ℚ) rate })) ∧
    HealthCheckStatus.ofOrdinal 0 = some .ONLINE ∧
    HealthCheckStatus.ofOrdinal 2 = some .OFFLINE ∧
    pyRound 0 = 0 ∧ pyRound 2 = 2 := by
  refine ⟨?_, rfl, rfl, pyRound_zero, pyRound_two⟩
  intro name nodeName ts now rate st h
  have hof : HealthCheckStatus.ofOrdinalE (pyRound rate) = .ok st := by
    simp [HealthCheckStatus.ofOrdinalE, h]
  simp +decide [Bright7.measurable_mapper, rec7, optTruthy, pyTruthy, pyItem,
    List.lookup, Bind.bind, Except.bind, asStr, asNum, pyFloat, hof, truncQ_sub_intCast]

theorem mapper7_rate_and_seconds_witness :
    (HealthCheckStatus.ofOrdinal (pyRound 0) = some HealthCheckStatus.ONLINE ∧
      Bright7.measurable_mapper (some (rec7 "foo" "n" ((0 : ℤ) : ℚ) 0)) ((5 : ℤ) : ℚ) =
        .ok (some { name := "foo", status := .ONLINE, node := "n", timestamp := ((0 : ℤ) : ℚ),
                    seconds_ago := 5 - 0, raw := rec7 "foo" "n" ((0 : ℤ) : ℚ) 0 })) ∧
    (HealthCheckStatus.ofOrdinal (pyRound 2) = some HealthCheckStatus.OFFLINE ∧
      Bright7.measurable_mapper (some (rec7 "bar" "n" ((0 : ℤ) : ℚ) 2)) ((5 : ℤ) : ℚ) =
        .ok (some { name := "bar", status := .OFFLINE, node := "n", timestamp := ((0 : ℤ) : ℚ),
                    seconds_ago := 5 - 0, raw := rec7 "bar" "n" ((0 : ℤ) : ℚ) 2 })) :=
  ⟨⟨by rw [pyRound_zero]; rfl,
    mapper7_rate_and_seconds.1 "foo" "n" 0 5 0 .ONLINE (by rw [pyRound_zero]; rfl)⟩,
   ⟨by rw [pyRound_two]; rfl,
    mapper7_rate_and_seconds.1 "bar" "n" 0 5 2 .OFFLINE (by rw [pyRound_two]; rfl)⟩⟩

/-! ## C6 -/

/-- A v8 raw record as the v8 REST endpoint reports it. -/
def rec8 (name nodeName : String) (ts : ℚ) (age : ℤ) (label : String) : Json :=
  .obj [("age", .num (age : ℚ)), ("entity", .str nodeName), ("measurable", .str name),
        ("time", .num ts), ("value", .str label)]

/-- C6: on any non-null v8 record the mapper yields the status enum member
for the string label of the `value` field — PASS gives ONLINE and FAIL gives
OFFLINE — and seconds_ago is the upstream `age` field verbatim (the v8
mapper takes no clock input at all). -/
theorem mapper8_label_and_age :
    (∀ (name nodeName : String) (ts : ℚ) (age : ℤ) (label : String) (st : HealthCheckStatus),
      HealthCheckStatus.ofLabel label = some st →
      Bright8.measurable_mapper (some (rec8 name nodeName ts age label)) =
        .ok (some { name := name, status := st, node := nodeName, timestamp := ts,
                    seconds_ago := age, raw := rec8 name nodeName ts age label })) ∧
    HealthCheckStatus.ofLabel "PASS" = some .ONLINE ∧
    HealthCheckStatus.ofLabel "FAIL" = some .OFFLINE := by
  refine ⟨?_, rfl, rfl⟩
  intro name nodeName ts age label st h
  have hof : HealthCheckStatus.ofLabelE label = .ok st := by
    simp [HealthCheckStatus.ofLabelE, h]
  simp +decide [Bright8.measurable_mapper, rec8, optTruthy, pyTruthy, pyItem,
    List.lookup, Bind.bind, Except.bind, asStr, asNum, pyInt, hof, truncQ_intCast]

theorem mapper8_label_and_age_witness :
    (HealthCheckStatus.ofLabel "PASS" = some HealthCheckStatus.ONLINE ∧
      Bright8.measurable_mapper (some (rec8 "foo" "foo_node" 0 0 "PASS")) =
        .ok (some { name := "foo", status := .ONLINE, node := "foo_node", timestamp := 0,
                    seconds_ago := 0, raw := rec8 "foo" "foo_node" 0 0 "PASS" })) ∧
    (HealthCheckStatus.ofLabel "FAIL" = some HealthCheckStatus.OFFLINE ∧
      Bright8.measurable_mapper (some (rec8 "bar" "bar_node" 0 0 "FAIL")) =
        .ok (some { name := "bar", status := .OFFLINE, node := "bar_node", timestamp := 0,
                    seconds_ago := 0, raw := rec8 "bar" "bar_node" 0 0 "FAIL" })) :=
  ⟨⟨rfl, mapper8_label_and_age.1 "foo" "foo_node" 0 0 "PASS" .ONLINE rfl⟩,
   ⟨rfl, mapper8_label_and_age.1 "bar" "bar_node" 0 0 "FAIL" .OFFLINE rfl⟩⟩

/-! ## C7 -/

/-- seconds_ago of a successful non-null mapping result (53 otherwise, an
arbitrary value unused by the records below). -/
def sAgoOf : Except PyErr (Option HealthCheck) → ℤ
  | .ok (some hc) => hc.seconds_ago
  | _ => 53

unseal Rat.sub Rat.mul in
/-- C7 counterexample: the v7 mapper applied to the same raw record at two
different times (clock 0 and clock 1) yields different results — the
seconds_ago field is recomputed from the clock — refuting the claim that two
applications at different times yield identical HealthCheck results. -/
theorem mapper7_time_dependence_cex :
    Bright7.measurable_mapper (some (rec7 "foo" "n" 0 0)) 0 ≠
      Bright7.measurable_mapper (some (rec7 "foo" "n" 0 0)) 1 := by
  intro h
  exact absurd (congrArg sAgoOf h) (by decide)

unseal Rat.sub Rat.mul in
/-- C7 (amended): both mappers are stateless functions callable without an
adapter instance and both return absent for a null input; the v8 mapper is a
pure function of the record alone (it takes no clock input), while the v7
mapper also depends on the current time through its recomputed seconds_ago
field, so v7 applications at different times can differ. -/
theorem mapper_null_and_statelessness :
    (∀ now : ℚ, Bright7.measurable_mapper none now = .ok none) ∧
    Bright8.measurable_mapper none = .ok none ∧
    (∃ (r : Option Json) (t1 t2 : ℚ),
      Bright7.measurable_mapper r t1 ≠ Bright7.measurable_mapper r t2) := by
  refine ⟨fun now => rfl, rfl, some (rec7 "foo" "n" 0 0), 0, 1, fun h => ?_⟩
  exact absurd (congrArg sAgoOf h) (by decide)

/-! ## C8 and C9: the v7 getLatestPickedRates data call -/

/-- Upstream for a full v7 round trip: both id lookups on the `/json`
endpoint resolve to uniqueKey 1, and the data call returns one rate
record. -/
def netData7 : Request → Except PyErr Json := fun r =>
  if r.url = "http://h/json" then .ok (.obj [("uniqueKey", .num 1)])
  else .ok (.arr [.obj [("rate", .num 0), ("timeStamp", .num 0)]])

def envData7 : Env := { net := netData7, now := 0 }

/-- C8 (evaluation at the failing input): in a full v7 fetch the two
resolution requests carry the configured 5-second timeout, but the
getLatestPickedRates data call — the third request on the trace — is issued
with no timeout at all, contradicting the claim that every outbound request
carries the configured timeout.  All other request constructors of both
adapters and the probe do carry `some timeout`; the v7 data request is the
sole exception. -/
theorem v7_data_call_timeout_eval :
    (Bright7.latest_measurable_data confW "foo" (some "n")).run envData7 =
      .ok ([rec7 "foo" "n" 0 0],
        [Bright7.measurableReq confW "foo", Bright7.entityReq confW (some "n"),
         Bright7.dataReq confW (.num 1) (.num 1)]) ∧
    (Bright7.measurableReq confW "foo").timeout = some 5 ∧
    (Bright7.entityReq confW (some "n")).timeout = some 5 ∧
    (Bright7.dataReq confW (.num 1) (.num 1)).timeout = none ∧
    (∀ (b : BrightConf) (n : String) (e : Option String) (mi ei : Json),
      (BrightBase.versionReq b).timeout = some b.timeout ∧
      (Bright7.measurableReq b n).timeout = some b.timeout ∧
      (Bright7.entityReq b e).timeout = some b.timeout ∧
      (Bright8.measurableReq b n).timeout = some b.timeout ∧
      (Bright8.latestReq b n e).timeout = some b.timeout ∧
      (Bright7.dataReq b mi ei).timeout = none) :=
  ⟨rfl, rfl, rfl, rfl, fun _ _ _ _ _ => ⟨rfl, rfl, rfl, rfl, rfl, rfl⟩⟩

/-- C9 (evaluation at the failing input): the v7 lookup requests go to the
`{base}/json` endpoint with the documented body shape, and the data call
carries the documented `args` payload and each response item is augmented
with measurable and entity before mapping — but the data call itself is
POSTed to the bare appliance URL, not to `{base}/json`, contradicting the
claim that every v7 request is a POST to `{base}/json`. -/
theorem v7_data_call_url_eval :
    (Bright7.measurableReq confW "foo").url = Bright7.base confW ∧
    (Bright7.entityReq confW (some "n")).url = Bright7.base confW ∧
    (Bright7.measurableReq confW "foo").body =
      some (.obj [("service", .str "cmmon"), ("call", .str "getHealthcheck"),
        ("arg", .str "foo")]) ∧
    (Bright7.entityReq confW (some "n")).body =
      some (.obj [("service", .str "cmdevice"), ("call", .str "getDevice"),
        ("arg", .str "n")]) ∧
    (Bright7.dataReq confW (.num 1) (.num 1)).body =
      some (.obj [("service", .str "cmmon"), ("call", .str "getLatestPickedRates"),
        ("args", .arr [.arr [.num 1], .arr [.obj [("metricId", .num 1)]]])]) ∧
    (Bright7.dataReq confW (.num 1) (.num 1)).url = confW.url ∧
    confW.url ≠ Bright7.base confW ∧
    (Bright7.latest_measurable_data confW "foo" (some "n")).run envData7 =
      .ok ([rec7 "foo" "n" 0 0],
        [Bright7.measurableReq confW "foo", Bright7.entityReq confW (some "n"),
         Bright7.dataReq confW (.num 1) (.num 1)]) :=
  ⟨rfl, rfl, rfl, rfl, rfl, rfl, by decide, rfl⟩

/-! ## C10 -/

/-- C10 counterexample: when the probe's response is an object without the
`cmVersion` field, `version` returns a value — Python `None` — after its one
network call, and does not fail with any error, refuting the claim that a
response lacking the version field makes the probe fail. -/
theorem version_missing_field_cex :
    (BrightBase.version confW).run envW = .ok (none, [BrightBase.versionReq confW]) ∧
    ∀ e : PyErr, (BrightBase.version confW).run envW ≠ .error e := by
  refine ⟨rfl, fun e h => ?_⟩
  rw [show (BrightBase.version confW).run envW
      = .ok (none, [BrightBase.versionReq confW]) from rfl] at h
  exact Except.noConfusion h

/-- C10 (amended): the probe posts the getVersion call and returns the
response's `cmVersion` field — the reported version string when the field is
present, and the absent value (None) when the response lacks the field,
rather than failing; only a transport-level failure of the call itself
propagates as an error. -/
theorem version_probe_behavior :
    (∀ (b : BrightConf) (env : Env) (kvs : List (String × Json)) (v : Json),
      env.net (BrightBase.versionReq b) = .ok (.obj kvs) →
      kvs.lookup "cmVersion" = some v →
      (BrightBase.version b).run env = .ok (some v, [BrightBase.versionReq b])) ∧
    (∀ (b : BrightConf) (env : Env) (kvs : List (String × Json)),
      env.net (BrightBase.versionReq b) = .ok (.obj kvs) →
      kvs.lookup "cmVersion" = none →
      (BrightBase.version b).run env = .ok (none, [BrightBase.versionReq b])) ∧
    (∀ (b : BrightConf) (env : Env) (e : PyErr),
      env.net (BrightBase.versionReq b) = .error e →
      (BrightBase.version b).run env = .error e) := by
  refine ⟨?_, ?_, ?_⟩
  · intro b env kvs v h1 h2
    simp [BrightBase.version, h1, h2, pyGet]
  · intro b env kvs h1 h2
    simp [BrightBase.version, h1, h2, pyGet]
  · intro b env e h1
    simp [BrightBase.version, h1]

/-- Environment whose upstream reports version 8.2. -/
def envVer : Env := { net := fun _ => .ok (.obj [("cmVersion", .str "8.2")]), now := 0 }

theorem version_probe_behavior_witness :
    envVer.net (BrightBase.versionReq confW) = .ok (.obj [("cmVersion", .str "8.2")]) ∧
    (BrightBase.version confW).run envVer =
      .ok (some (.str "8.2"), [BrightBase.versionReq confW]) :=
  ⟨rfl, version_probe_behavior.1 confW envVer [("cmVersion", .str "8.2")] (.str "8.2") rfl rfl⟩
